import Mathlib

/-
Verification of the token-bounded chunking and aggregation engine of
news_scraper (src/news_scraper/core/genai.py).

The Python functions are shallowly embedded as executable Lean functions.
External effects are modelled explicitly:
* token counting (tiktoken) is an opaque external tokenizer, modelled as a
  parameter tc : String → Nat;
* one call to the chat-completion endpoint is modelled by a CallOutcome:
  nothing for a raised exception, otherwise the optional message content
  (message.content may be null);
* JSON decoding of a model response (json.loads plus key lookup) is modelled
  by a parameter parse : String → Option ParsedAnalysis, where the outer
  Option models a JSON decode error and the fields model key presence.

Python string primitives used by the code (str.split with a separator,
str.join, str.strip, str.lower) are modelled by structurally recursive
functions on the character list so that every definition evaluates inside
the kernel.
-/

set_option autoImplicit false

namespace NewsScraper

/-- One scanning step of Python str.split with a non-empty separator.
The argument skip counts separator characters still to be consumed after a
match; acc holds the characters of the current piece in reverse. -/
def splitSkip (sep : List Char) : List Char → Nat → List Char → List (List Char)
  | [], _, acc => [acc.reverse]
  | _ :: cs, skip + 1, acc => splitSkip sep cs skip acc
  | c :: cs, 0, acc =>
    if sep.isPrefixOf (c :: cs) then
      acc.reverse :: splitSkip sep cs (sep.length - 1) []
    else
      splitSkip sep cs 0 (c :: acc)

/-- Python s.split(sep) for a non-empty separator sep: cut at leftmost
non-overlapping occurrences of sep, keeping empty pieces. -/
def pySplit (s sep : String) : List String :=
  (splitSkip sep.data s.data 0 []).map fun cs => ⟨cs⟩

/-- Python sep.join(l). -/
def pyJoin (sep : String) : List String → String
  | [] => ""
  | [s] => s
  | s :: rest => s ++ sep ++ pyJoin sep rest

/-- Python s.strip() restricted to ASCII whitespace. -/
def pyStrip (s : String) : String :=
  ⟨((s.data.dropWhile Char.isWhitespace).reverse.dropWhile Char.isWhitespace).reverse⟩

/-- Python s.lower() restricted to ASCII letters. -/
def pyLower (s : String) : String := ⟨s.data.map Char.toLower⟩

/-- Python needle in haystack (substring containment). -/
def containsSub (needle haystack : String) : Bool :=
  (pySplit haystack needle).length != 1

/-- Outcome of one call to the external chat-completion capability:
nothing models the call raising an exception, otherwise the value is the
message content of the first choice (which itself may be null). -/
abbrev CallOutcome := Option (Option String)

/-- Model of json.loads applied to a model response: which of the keys
summary and topics are present, and with which values. -/
structure ParsedAnalysis where
  summary : Option String
  topics : Option (List String)

/-! ## get_model_context_limit (genai.py lines 18-78) -/

/-- The static table model_limits of known model identifiers, in source
order. -/
def model_limits : List (String × Nat) :=
  [("gpt-5-nano", 400000),
   ("gpt-3.5-turbo", 16385),
   ("gpt-3.5-turbo-16k", 16385),
   ("gpt-3.5-turbo-1106", 16385),
   ("gpt-3.5-turbo-0125", 16385),
   ("gpt-4", 8192),
   ("gpt-4-0314", 8192),
   ("gpt-4-0613", 8192),
   ("gpt-4-turbo", 128000),
   ("gpt-4-turbo-preview", 128000),
   ("gpt-4-1106-preview", 128000),
   ("gpt-4-0125-preview", 128000),
   ("gpt-4-turbo-2024-04-09", 128000),
   ("gpt-4o", 128000),
   ("gpt-4o-2024-05-13", 128000),
   ("gpt-4o-2024-08-06", 128000),
   ("gpt-4o-mini", 128000),
   ("gpt-4o-mini-2024-07-18", 128000),
   ("text-davinci-003", 4097),
   ("text-davinci-002", 4097),
   ("code-davinci-002", 8001)]

/-- Exact-key lookup in an association list, modelling the Python dict
membership test and indexing (the dict keys are pairwise distinct, so
insertion order is irrelevant). -/
def dictLookup : List (String × Nat) → String → Option Nat
  | [], _ => none
  | (k, v) :: rest, m => if m = k then some v else dictLookup rest m

/-- genai.get_model_context_limit: exact table match, then ordered substring
heuristics on the lowercased identifier, then the conservative fallback
4096 (the warning log is a pure side effect and is not modelled). -/
def get_model_context_limit (model : String) : Nat :=
  match dictLookup model_limits model with
  | some v => v
  | none =>
    let model_lower := pyLower model
    if containsSub "gpt-4o" model_lower then 128000
    else if containsSub "gpt-4-turbo" model_lower
         || containsSub "gpt-4-1106" model_lower
         || containsSub "gpt-4-0125" model_lower then 128000
    else if containsSub "gpt-4" model_lower then 8192
    else if containsSub "gpt-3.5-turbo" model_lower then 16385
    else if containsSub "davinci" model_lower then
      if containsSub "code" model_lower then 8001 else 4097
    else 4096

/-! ## chunk_content (genai.py lines 93-135)

count_tokens delegates to the external tiktoken library and is modelled as
the parameter tc. The loop-carried state (chunks, current_chunk) becomes a
fold accumulator. safe_token_limit is an Int because the Python expression
max_tokens - 1000 may be negative. -/

/-- One iteration of the inner sentence loop of chunk_content: the
accumulator is (chunks, temp_chunk). -/
def sentStep (tc : String → Nat) (safe : Int) (acc : List String × String)
    (sentence : String) : List String × String :=
  let test_sentence := acc.2 ++ (if acc.2 ≠ "" then ". " else "") ++ sentence
  if (tc test_sentence : Int) ≤ safe then (acc.1, test_sentence)
  else if acc.2 ≠ "" then (acc.1 ++ [acc.2], sentence) else (acc.1, sentence)

/-- One iteration of the outer paragraph loop of chunk_content: the
accumulator is (chunks, current_chunk). -/
def paraStep (tc : String → Nat) (safe : Int) (acc : List String × String)
    (paragraph : String) : List String × String :=
  let test_chunk := acc.2 ++ (if acc.2 ≠ "" then "\n\n" else "") ++ paragraph
  if (tc test_chunk : Int) ≤ safe then (acc.1, test_chunk)
  else
    let chunks1 := if acc.2 ≠ "" then acc.1 ++ [acc.2] else acc.1
    let current1 := if acc.2 ≠ "" then paragraph else acc.2
    if (tc paragraph : Int) > safe then
      let r := (pySplit paragraph ". ").foldl (sentStep tc safe) (chunks1, "")
      if r.2 ≠ "" then (r.1, r.2) else (r.1, current1)
    else (chunks1, paragraph)

/-- genai.chunk_content: split content into chunks intended to fit within
token limits, preferring paragraph and then sentence boundaries. -/
def chunk_content (tc : String → Nat) (max_tokens : Int) (content : String) :
    List String :=
  let safe_token_limit := max_tokens - 1000
  let r := (pySplit content "\n\n").foldl (paraStep tc safe_token_limit) ([], "")
  if r.2 ≠ "" then r.1 ++ [r.2] else r.1

/-! ## analyze_article_chunk (genai.py lines 138-184) -/

/-- genai.analyze_article_chunk: one external call per invocation; every
exception inside the try block (the call raising, null message content, a
JSON decode error) is caught and turned into the per-chunk placeholder.
On success the summary defaults via dict.get and the topics are stripped
and filtered for non-emptiness. -/
def analyze_article_chunk (call : CallOutcome)
    (parse : String → Option ParsedAnalysis)
    (request_id chunk : String) (chunk_index total_chunks : Nat) :
    String × List String :=
  let failResult : String × List String :=
    ("Could not generate summary for part " ++ toString (chunk_index + 1) ++ ".", [])
  match call with
  | none => failResult
  | some none => failResult
  | some (some message_content) =>
    match parse (pyStrip message_content) with
    | none => failResult
    | some analysis =>
      let summary := analysis.summary.getD "No summary available."
      let topics := ((analysis.topics.getD []).map pyStrip).filter (fun t => t ≠ "")
      (summary, topics)

/-! ## merge_chunk_analyses (genai.py lines 187-237) -/

/-- Result of merge_chunk_analyses together with the number of calls made
to the external synthesis capability during the merge. -/
structure MergeOut where
  summary : String
  topics : List String
  synth_calls : Nat
deriving DecidableEq, Repr

/-- The combined section-numbered summary built by merge_chunk_analyses. -/
def combined_summary (summaries : List String) : String :=
  pyJoin "\n\n" (summaries.enum.map fun p => "Section " ++ toString (p.1 + 1) ++ ": " ++ p.2)

/-- The literal final_prompt f-string of merge_chunk_analyses. -/
def final_prompt (cs : String) : String :=
  "\n    Based on the following section summaries from a news article, create a single coherent summary:\n    \n    "
    ++ cs
    ++ "\n    \n    Provide a unified summary that captures the main points without redundancy.\n    "

/-- One iteration of the topic deduplication loop: the accumulator is
(seen, unique_topics); seen is the membership set of lowercased topics. -/
def dedupStep (p : List String × List String) (topic : String) :
    List String × List String :=
  let topic_lower := pyLower topic
  if topic_lower ∈ p.1 then p else (topic_lower :: p.1, p.2 ++ [topic])

/-- The order-preserving case-insensitive deduplication performed at the end
of merge_chunk_analyses. -/
def dedupFirst (l : List String) : List String := (l.foldl dedupStep ([], [])).2

/-- genai.merge_chunk_analyses: empty input short-circuits with a fixed
result and no external call; otherwise exactly one synthesis call is made
on the final prompt; if it raises, the fallback summary is the single-space
join of the raw summaries; a null or empty response content is replaced by
a fixed placeholder; the returned summary is stripped. -/
def merge_chunk_analyses (synth : String → CallOutcome)
    (summaries : List String) (topics_lists : List (List String)) : MergeOut :=
  if summaries = [] then ⟨"Could not generate summary.", [], 0⟩
  else
    let final_summary :=
      match synth (final_prompt (combined_summary summaries)) with
      | none => pyJoin " " summaries
      | some none => "Could not generate final summary."
      | some (some s) => if s = "" then "Could not generate final summary." else s
    let all_topics := topics_lists.flatten
    ⟨pyStrip final_summary, dedupFirst all_topics, 1⟩

/-! ## analyze_single_article (genai.py lines 240-283) -/

/-- genai.analyze_single_article: one external call; any exception (the call
raising, null content, JSON decode error, or a missing summary or topics
key, which raises KeyError) yields the fixed placeholder; a falsy summary
value is replaced by a default and topics are stripped and filtered. -/
def analyze_single_article (call : CallOutcome)
    (parse : String → Option ParsedAnalysis)
    (request_id content : String) : String × List String :=
  let failResult : String × List String := ("Could not generate summary.", [])
  match call with
  | none => failResult
  | some none => failResult
  | some (some message_content) =>
    match parse (pyStrip message_content) with
    | none => failResult
    | some analysis =>
      match analysis.summary, analysis.topics with
      | some s, some ts =>
        ((if s = "" then "No summary available." else s),
         (ts.map pyStrip).filter (fun t => t ≠ ""))
      | _, _ => failResult

/-! ## analyze_article_content (genai.py lines 286-334) -/

/-- The per-chunk analysis loop of analyze_article_content: chunk i is
analyzed with its own call outcome outcomes i, in chunk order. -/
def analyzeChunksAux (outcomes : Nat → CallOutcome)
    (parse : String → Option ParsedAnalysis)
    (request_id : String) (total : Nat) :
    Nat → List String → List (String × List String)
  | _, [] => []
  | i, c :: cs =>
    analyze_article_chunk (outcomes i) parse request_id c i total
      :: analyzeChunksAux outcomes parse request_id total (i + 1) cs

/-- The complete per-chunk analysis pass over a chunk list. -/
def analyzeChunks (outcomes : Nat → CallOutcome)
    (parse : String → Option ParsedAnalysis)
    (request_id : String) (chunks : List String) :
    List (String × List String) :=
  analyzeChunksAux outcomes parse request_id chunks.length 0 chunks

/-- Result of analyze_article_content together with the number of calls
made to the external analysis and synthesis capabilities. -/
structure AnalyzeOut where
  summary : String
  topics : List String
  analyze_calls : Nat
  synth_calls : Nat
deriving DecidableEq, Repr

/-- genai.analyze_article_content: the orchestrating facade. singleCall is
the outcome of the one analysis call of the single-pass path, chunkOutcomes
the per-chunk outcomes of the chunked path, synth the synthesis capability
used by the merge. -/
def analyze_article_content (tc : String → Nat) (model : String)
    (singleCall : CallOutcome) (chunkOutcomes : Nat → CallOutcome)
    (parse : String → Option ParsedAnalysis) (synth : String → CallOutcome)
    (request_id content : String) : AnalyzeOut :=
  let max_tokens := get_model_context_limit model
  let total_tokens := tc content
  if (total_tokens : Int) ≤ (max_tokens : Int) - 1000 then
    let r := analyze_single_article singleCall parse request_id content
    ⟨r.1, r.2, 1, 0⟩
  else
    let chunks := chunk_content tc (max_tokens : Int) content
    let partials := analyzeChunks chunkOutcomes parse request_id chunks
    let m := merge_chunk_analyses synth (partials.map Prod.fst) (partials.map Prod.snd)
    ⟨m.summary, m.topics, chunks.length, m.synth_calls⟩

/-- The ordered substring heuristics described by claim C9, written from the
words of the spec, for comparison with the miss path of
get_model_context_limit. -/
def spec_limit_heuristics (model_lower : String) : Nat :=
  if containsSub "gpt-4o" model_lower then 128000
  else if containsSub "gpt-4-turbo" model_lower
       || containsSub "gpt-4-1106" model_lower
       || containsSub "gpt-4-0125" model_lower then 128000
  else if containsSub "gpt-4" model_lower then 8192
  else if containsSub "gpt-3.5-turbo" model_lower then 16385
  else if containsSub "davinci" model_lower then
    if containsSub "code" model_lower then 8001 else 4097
  else 4096

/-- Structural-recursion form of dedupFirst, used to reason about the
deduplication loop: seen is the set of already-kept lowercased topics. -/
def dedupRec (seen : List String) : List String → List String
  | [] => []
  | t :: ts =>
    if pyLower t ∈ seen then dedupRec seen ts
    else t :: dedupRec (pyLower t :: seen) ts

/-! ## Theorems -/

theorem mem_flush {chunks : List String} {cur : String}
    (h : ∀ c ∈ chunks, c ≠ "") (hcur : cur ≠ "") :
    ∀ c ∈ chunks ++ [cur], c ≠ "" := by
  intro c hc
  rcases List.mem_append.1 hc with hc | hc
  · exact h c hc
  · exact (List.mem_singleton.1 hc) ▸ hcur

theorem sentStep_ne (tc : String → Nat) (safe : Int) (acc : List String × String)
    (s : String) (h : ∀ c ∈ acc.1, c ≠ "") :
    ∀ c ∈ (sentStep tc safe acc s).1, c ≠ "" := by
  by_cases hA : acc.2 = "" <;>
    simp only [sentStep, hA] <;>
    split_ifs <;>
    first
      | exact h
      | exact mem_flush h hA
      | simp_all

theorem sentFold_ne (tc : String → Nat) (safe : Int) :
    ∀ (l : List String) (acc : List String × String),
      (∀ c ∈ acc.1, c ≠ "") →
      ∀ c ∈ (l.foldl (sentStep tc safe) acc).1, c ≠ "" := by
  intro l
  induction l with
  | nil => intro acc h; exact h
  | cons s l ih =>
    intro acc h
    exact ih _ (sentStep_ne tc safe acc s h)

theorem paraStep_ne (tc : String → Nat) (safe : Int) (acc : List String × String)
    (p : String) (h : ∀ c ∈ acc.1, c ≠ "") :
    ∀ c ∈ (paraStep tc safe acc p).1, c ≠ "" := by
  by_cases hA : acc.2 = "" <;>
    simp only [paraStep, hA] <;>
    split_ifs <;>
    first
      | exact h
      | exact mem_flush h hA
      | exact sentFold_ne tc safe _ _ h
      | exact sentFold_ne tc safe _ _ (mem_flush h hA)
      | simp_all

theorem paraFold_ne (tc : String → Nat) (safe : Int) :
    ∀ (l : List String) (acc : List String × String),
      (∀ c ∈ acc.1, c ≠ "") →
      ∀ c ∈ (l.foldl (paraStep tc safe) acc).1, c ≠ "" := by
  intro l
  induction l with
  | nil => intro acc h; exact h
  | cons p l ih =>
    intro acc h
    exact ih _ (paraStep_ne tc safe acc p h)

/-- C10: every flush of an accumulation buffer in chunk_content is guarded
by a non-emptiness test, so no element of the returned list is the empty
string, for every token counter, every max_tokens and every content. -/
theorem chunk_content_no_empty_chunk (tc : String → Nat) (max_tokens : Int)
    (content : String) :
    ∀ c ∈ chunk_content tc max_tokens content, c ≠ "" := by
  unfold chunk_content
  have hbase : ∀ c ∈ ([] : List String), c ≠ "" := by simp
  have hfold := paraFold_ne tc (max_tokens - 1000) (pySplit content "\n\n") ([], "") hbase
  dsimp only
  split_ifs with hne
  · exact mem_flush hfold hne
  · exact hfold

/-- Witness for C10 at a concrete input. -/
theorem chunk_content_no_empty_chunk_witness : ("AA" : String) ≠ "" :=
  chunk_content_no_empty_chunk String.length 1004 "AA" "AA" (by decide)

/-- C1: at the failing input the chunker duplicates content. With the token
counter counting characters and max_tokens = 1004 (safe limit 4), the input
splits into paragraphs AA and BBBBB. ; the second paragraph is oversized,
its sentence split flushes BBBBB, the trailing empty sentence leaves the
temporary buffer empty, and the stale current_chunk still holding the whole
paragraph is flushed as well. The text BBBBB occurs in two chunks, so no
reinsertion of boundary separators can reconstruct the input; moreover a
whitespace-only non-empty input yields an empty chunk list. -/
theorem chunk_content_duplicates_content :
    chunk_content String.length 1004 "AA\n\nBBBBB. " = ["AA", "BBBBB", "BBBBB. "]
    ∧ "AA" ++ "\n\n" ++ "BBBBB" ++ "\n\n" ++ "BBBBB. " ≠ "AA\n\nBBBBB. "
    ∧ "AA" ++ "\n\n" ++ "BBBBB" ++ ". " ++ "BBBBB. " ≠ "AA\n\nBBBBB. "
    ∧ "AA" ++ ". " ++ "BBBBB" ++ "\n\n" ++ "BBBBB. " ≠ "AA\n\nBBBBB. "
    ∧ "AA" ++ ". " ++ "BBBBB" ++ ". " ++ "BBBBB. " ≠ "AA\n\nBBBBB. "
    ∧ chunk_content String.length 3000 "\n\n" = [] := by decide

/-- C2: at the same failing input the stale flushed chunk BBBBB. exceeds
the reserved budget max_tokens - 1000 = 4 although it is not a single
sentence: it still contains the sentence separator. -/
theorem chunk_content_oversized_not_single_sentence :
    chunk_content String.length 1004 "AA\n\nBBBBB. " = ["AA", "BBBBB", "BBBBB. "]
    ∧ ¬ ((String.length "BBBBB. " : Int) ≤ 1004 - 1000)
    ∧ (pySplit "BBBBB. " ". ").length ≠ 1 := by decide

/-- C8: merging an empty sequence of partial summaries returns the fixed
empty-state result and performs zero synthesis calls, for every synthesis
capability and every topics input. -/
theorem merge_empty_fixed (synth : String → CallOutcome)
    (topics_lists : List (List String)) :
    merge_chunk_analyses synth [] topics_lists
      = ⟨"Could not generate summary.", [], 0⟩ := rfl

theorem analyzeChunksAux_congr (o o2 : Nat → CallOutcome)
    (parse : String → Option ParsedAnalysis) (rid : String) (total i : Nat)
    (h : ∀ j, j ≠ i → o2 j = o j) :
    ∀ (cs : List String) (j0 k : Nat), j0 + k ≠ i →
      (analyzeChunksAux o parse rid total j0 cs)[k]?
        = (analyzeChunksAux o2 parse rid total j0 cs)[k]? := by
  intro cs
  induction cs with
  | nil => intro j0 k _; rfl
  | cons c cs ih =>
    intro j0 k hk
    cases k with
    | zero =>
      simp only [analyzeChunksAux, List.getElem?_cons_zero]
      rw [h j0 (by omega)]
    | succ k =>
      simp only [analyzeChunksAux, List.getElem?_cons_succ]
      exact ih (j0 + 1) k (by omega)

/-- C4: if the external analysis call for chunk i raises, then
analyze_article_chunk swallows the exception and returns the deterministic
placeholder naming part i+1 together with an empty topic list, and the
analyses of all other chunks are unaffected by the outcome of call i. -/
theorem analyze_chunk_failure_isolated
    (parse : String → Option ParsedAnalysis) (request_id chunk : String)
    (i total_chunks : Nat) (outcomes outcomes2 : Nat → CallOutcome)
    (chunks : List String)
    (hfail : outcomes i = none)
    (hagree : ∀ j, j ≠ i → outcomes2 j = outcomes j) :
    analyze_article_chunk (outcomes i) parse request_id chunk i total_chunks
        = ("Could not generate summary for part " ++ toString (i + 1) ++ ".", [])
      ∧ ∀ k, k ≠ i →
          (analyzeChunks outcomes parse request_id chunks)[k]?
            = (analyzeChunks outcomes2 parse request_id chunks)[k]? := by
  constructor
  · rw [hfail]; rfl
  · intro k hk
    exact analyzeChunksAux_congr outcomes outcomes2 parse request_id chunks.length i
      hagree chunks 0 k (by omega)

/-- Witness for C4: chunk 2 of 3 raises, chunks 1 and 3 are analyzed with
an everywhere-raising capability in both runs and agree. -/
theorem analyze_chunk_failure_isolated_witness :
    analyze_article_chunk ((fun _ => (none : CallOutcome)) 1) (fun _ => none) "r" "c" 1 3
        = ("Could not generate summary for part " ++ toString (1 + 1) ++ ".", [])
      ∧ ∀ k, k ≠ 1 →
          (analyzeChunks (fun _ => none) (fun _ => none) "r" ["a", "b", "c"])[k]?
            = (analyzeChunks (fun _ => none) (fun _ => none) "r" ["a", "b", "c"])[k]? :=
  analyze_chunk_failure_isolated (fun _ => none) "r" "c" 1 3 (fun _ => none)
    (fun _ => none) ["a", "b", "c"] rfl (fun _ _ => rfl)

theorem dictLookup_pos :
    ∀ (l : List (String × Nat)) (m : String) (v : Nat),
      dictLookup l m = some v → (∀ p ∈ l, 0 < p.2) → 0 < v := by
  intro l
  induction l with
  | nil => intro m v hv _; cases hv
  | cons p rest ih =>
    intro m v hv hpos
    by_cases hm : m = p.1
    · simp only [dictLookup, hm, if_true] at hv
      cases p
      simp_all
    · cases p with
      | mk k w =>
        simp only [dictLookup] at hv
        rw [if_neg (by simpa using hm)] at hv
        exact ih m v hv (fun q hq => hpos q (List.mem_cons_of_mem _ hq))

/-- C9: get_model_context_limit is total and positive for every model
identifier; an exact hit in the static table returns the tabulated value,
and on a miss the result is exactly the ordered substring heuristics of the
claim (128000 for the gpt-4o and gpt-4-turbo/1106/0125 families, 8192 for
bare gpt-4, 16385 for gpt-3.5-turbo, 8001/4097 for davinci with or without
code, and the conservative fallback 4096 otherwise). -/
theorem get_model_context_limit_spec (model : String) :
    0 < get_model_context_limit model
      ∧ (∀ v, dictLookup model_limits model = some v →
          get_model_context_limit model = v)
      ∧ (dictLookup model_limits model = none →
          get_model_context_limit model = spec_limit_heuristics (pyLower model)) := by
  unfold get_model_context_limit
  cases h : dictLookup model_limits model with
  | some v =>
    refine ⟨dictLookup_pos model_limits model v h (by decide), ?_, ?_⟩
    · intro w hw
      cases hw
      rfl
    · intro hn
      cases hn
  | none =>
    refine ⟨?_, ?_, ?_⟩
    · dsimp only
      split_ifs <;> decide
    · intro w hw
      cases hw
    · intro _
      rfl

/-- Witness for C9: an exact table hit and a heuristic miss. -/
theorem get_model_context_limit_spec_witness :
    get_model_context_limit "gpt-4" = 8192
      ∧ get_model_context_limit "my-gpt-4o-x" = spec_limit_heuristics (pyLower "my-gpt-4o-x") :=
  ⟨(get_model_context_limit_spec "gpt-4").2.1 8192 rfl,
   (get_model_context_limit_spec "my-gpt-4o-x").2.2 rfl⟩

theorem dedup_foldl_eq :
    ∀ (l : List String) (seen acc : List String),
      (l.foldl dedupStep (seen, acc)).2 = acc ++ dedupRec seen l := by
  intro l
  induction l with
  | nil => intro seen acc; simp [dedupRec]
  | cons t ts ih =>
    intro seen acc
    by_cases hm : pyLower t ∈ seen
    · simp only [List.foldl_cons, dedupStep, dedupRec, hm, if_true]
      exact ih seen acc
    · simp only [List.foldl_cons, dedupStep, dedupRec, hm, if_false]
      rw [ih (pyLower t :: seen) (acc ++ [t])]
      simp

theorem dedupFirst_eq_rec (l : List String) : dedupFirst l = dedupRec [] l := by
  unfold dedupFirst
  simpa using dedup_foldl_eq l [] []

theorem dedupRec_lower_not_seen :
    ∀ (l seen : List String) (x : String), x ∈ dedupRec seen l → pyLower x ∉ seen := by
  intro l
  induction l with
  | nil => intro seen x hx; cases hx
  | cons t ts ih =>
    intro seen x hx
    by_cases hm : pyLower t ∈ seen
    · rw [dedupRec, if_pos hm] at hx
      exact ih seen x hx
    · rw [dedupRec, if_neg hm] at hx
      rcases List.mem_cons.1 hx with hx | hx
      · exact hx ▸ hm
      · intro hs
        exact ih (pyLower t :: seen) x hx (List.mem_cons_of_mem _ hs)

theorem dedupRec_pairwise :
    ∀ (l seen : List String),
      (dedupRec seen l).Pairwise (fun a b => pyLower a ≠ pyLower b) := by
  intro l
  induction l with
  | nil => intro seen; simp [dedupRec]
  | cons t ts ih =>
    intro seen
    by_cases hm : pyLower t ∈ seen
    · rw [dedupRec, if_pos hm]
      exact ih seen
    · rw [dedupRec, if_neg hm]
      refine List.Pairwise.cons ?_ (ih (pyLower t :: seen))
      intro b hb heq
      exact dedupRec_lower_not_seen ts (pyLower t :: seen) b hb (heq ▸ List.mem_cons_self _ _)

theorem dedupRec_sublist :
    ∀ (l seen : List String), List.Sublist (dedupRec seen l) l := by
  intro l
  induction l with
  | nil => intro seen; simp [dedupRec]
  | cons t ts ih =>
    intro seen
    by_cases hm : pyLower t ∈ seen
    · rw [dedupRec, if_pos hm]
      exact (ih seen).trans (List.sublist_cons_self t ts)
    · rw [dedupRec, if_neg hm]
      exact (ih (pyLower t :: seen)).cons₂ t

theorem dedupRec_complete :
    ∀ (l seen : List String) (x : String), x ∈ l →
      pyLower x ∈ seen ∨ ∃ y ∈ dedupRec seen l, pyLower y = pyLower x := by
  intro l
  induction l with
  | nil => intro seen x hx; cases hx
  | cons t ts ih =>
    intro seen x hx
    by_cases hm : pyLower t ∈ seen
    · rw [dedupRec, if_pos hm]
      rcases List.mem_cons.1 hx with hx | hx
      · exact Or.inl (hx ▸ hm)
      · exact ih seen x hx
    · rw [dedupRec, if_neg hm]
      rcases List.mem_cons.1 hx with hx | hx
      · exact Or.inr ⟨t, List.mem_cons_self _ _, by rw [hx]⟩
      · rcases ih (pyLower t :: seen) x hx with hs | ⟨y, hy, hly⟩
        · rcases List.mem_cons.1 hs with hs | hs
          · exact Or.inr ⟨t, List.mem_cons_self _ _, hs.symm⟩
          · exact Or.inl hs
        · exact Or.inr ⟨y, List.mem_cons_of_mem _ hy, hly⟩

theorem dedupRec_first_occurrence :
    ∀ (l seen : List String) (y : String), y ∈ dedupRec seen l →
      l.find? (fun b => decide (pyLower b = pyLower y)) = some y := by
  intro l
  induction l with
  | nil => intro seen y hy; cases hy
  | cons t ts ih =>
    intro seen y hy
    by_cases hm : pyLower t ∈ seen
    · rw [dedupRec, if_pos hm] at hy
      have hne : pyLower t ≠ pyLower y := by
        intro he
        exact dedupRec_lower_not_seen ts seen y hy (he ▸ hm)
      rw [List.find?_cons_of_neg _ (by simpa using hne)]
      exact ih seen y hy
    · rw [dedupRec, if_neg hm] at hy
      rcases List.mem_cons.1 hy with hy | hy
      · subst hy
        exact List.find?_cons_of_pos _ (by simp)
      · have hns := dedupRec_lower_not_seen ts (pyLower t :: seen) y hy
        have hne : pyLower t ≠ pyLower y := fun he => hns (he ▸ List.mem_cons_self _ _)
        rw [List.find?_cons_of_neg _ (by simpa using hne)]
        exact ih (pyLower t :: seen) y hy

/-- C7: for every input, the merged topic list of merge_chunk_analyses is
the order-preserving case-insensitive deduplication of the concatenated
topic lists: pairwise distinct under lowercasing, a sublist of the input
(hence original order and casing), complete for every input topic up to
case, and each kept element is the first occurrence of its lowercase class;
in particular the labels AI, ai, Politics spread over two partials merge to
AI, Politics. -/
theorem merge_topics_dedup (synth : String → CallOutcome)
    (summaries : List String) (topics_lists : List (List String))
    (h : summaries ≠ []) :
    (merge_chunk_analyses synth summaries topics_lists).topics
        = dedupFirst topics_lists.flatten
      ∧ (dedupFirst topics_lists.flatten).Pairwise (fun a b => pyLower a ≠ pyLower b)
      ∧ List.Sublist (dedupFirst topics_lists.flatten) topics_lists.flatten
      ∧ (∀ x ∈ topics_lists.flatten, ∃ y ∈ dedupFirst topics_lists.flatten,
          pyLower y = pyLower x)
      ∧ (∀ y ∈ dedupFirst topics_lists.flatten,
          topics_lists.flatten.find? (fun b => decide (pyLower b = pyLower y)) = some y)
      ∧ (merge_chunk_analyses (fun _ => none) ["s1", "s2"]
          [["AI", "ai"], ["Politics"]]).topics = ["AI", "Politics"] := by
  refine ⟨?_, ?_, ?_, ?_, ?_, by decide⟩
  · rw [merge_chunk_analyses, if_neg h]
  · rw [dedupFirst_eq_rec]
    exact dedupRec_pairwise _ []
  · rw [dedupFirst_eq_rec]
    exact dedupRec_sublist _ []
  · intro x hx
    rw [dedupFirst_eq_rec]
    rcases dedupRec_complete topics_lists.flatten [] x hx with hs | hy
    · cases hs
    · exact hy
  · intro y hy
    rw [dedupFirst_eq_rec] at hy
    exact dedupRec_first_occurrence topics_lists.flatten [] y hy

/-- Witness for C7 at a concrete two-partial input. -/
theorem merge_topics_dedup_witness :
    (merge_chunk_analyses (fun _ => none) ["s1", "s2"]
        [["AI", "ai"], ["Politics"]]).topics
      = dedupFirst [["AI", "ai"], ["Politics"]].flatten :=
  (merge_topics_dedup (fun _ => none) ["s1", "s2"] [["AI", "ai"], ["Politics"]]
    (by decide)).1

/-- C3 counterexample: on a single-element input merge_chunk_analyses does
not return the partial unchanged and does not avoid the synthesis call: with
a synthesis capability answering SYNTHESIZED, the single summary orig is
replaced and one synthesis call is made. -/
theorem merge_single_not_identity :
    (merge_chunk_analyses (fun _ => some (some "SYNTHESIZED")) ["orig"] [["t"]]).synth_calls ≠ 0
      ∧ (merge_chunk_analyses (fun _ => some (some "SYNTHESIZED")) ["orig"] [["t"]]).summary ≠ "orig" := by
  decide

/-- C3 (amended): merge_chunk_analyses on a single-element input still
performs exactly one synthesis call; the topics are the case-insensitive
deduplication of the single topic list; the summary is the synthesis
output, and only when the synthesis call raises does it fall back to the
single partial summary (stripped). -/
theorem merge_single_always_synthesizes (synth : String → CallOutcome)
    (s : String) (ts : List String) :
    (merge_chunk_analyses synth [s] [ts]).synth_calls = 1
      ∧ (merge_chunk_analyses synth [s] [ts]).topics = dedupFirst ts
      ∧ (synth (final_prompt (combined_summary [s])) = none →
          (merge_chunk_analyses synth [s] [ts]).summary = pyStrip s) := by
  refine ⟨rfl, ?_, ?_⟩
  · simp only [merge_chunk_analyses]
    rw [if_neg (List.cons_ne_nil s [])]
    dsimp only
    rw [List.flatten_cons, List.flatten_nil, List.append_nil]
  · intro hf
    simp only [merge_chunk_analyses]
    rw [if_neg (List.cons_ne_nil s [])]
    dsimp only
    rw [hf]
    rfl

/-- Witness for C3 (amended) at a failing synthesis capability. -/
theorem merge_single_always_synthesizes_witness :
    (merge_chunk_analyses (fun _ => none) ["hi"] [["t", "T"]]).summary = pyStrip "hi" :=
  (merge_single_always_synthesizes (fun _ => none) "hi" ["t", "T"]).2.2 rfl

/-- C5 counterexample: when the synthesis call raises, the returned summary
is the stripped whitespace-join, not the raw join: for the single partial
summary consisting of a space followed by a, the code returns a while the
raw single-space join keeps the leading space. -/
theorem merge_fallback_strips :
    (merge_chunk_analyses (fun _ => none) [" a"] [[]]).summary = "a"
      ∧ pyJoin " " [" a"] = " a"
      ∧ (merge_chunk_analyses (fun _ => none) [" a"] [[]]).summary ≠ pyJoin " " [" a"] := by
  decide

/-- C5 (amended): for every non-empty list of partial summaries, if the
synthesis call raises then merge_chunk_analyses still returns: the final
summary is the single-space join of the raw partial summaries stripped of
leading and trailing whitespace, the label merge is performed unchanged
without any external capability, and exactly one synthesis call was
attempted; no exception escapes (the function is total). -/
theorem merge_synth_failure_fallback (synth : String → CallOutcome)
    (summaries : List String) (topics_lists : List (List String))
    (h : summaries ≠ [])
    (hfail : synth (final_prompt (combined_summary summaries)) = none) :
    merge_chunk_analyses synth summaries topics_lists
      = ⟨pyStrip (pyJoin " " summaries), dedupFirst topics_lists.flatten, 1⟩ := by
  simp only [merge_chunk_analyses]
  rw [if_neg h, hfail]

/-- Witness for C5 (amended) at a concrete two-chunk input. -/
theorem merge_synth_failure_fallback_witness :
    merge_chunk_analyses (fun _ => none) ["x", "y"] [["T"], ["t"]]
      = ⟨pyStrip (pyJoin " " ["x", "y"]), dedupFirst [["T"], ["t"]].flatten, 1⟩ :=
  merge_synth_failure_fallback (fun _ => none) ["x", "y"] [["T"], ["t"]]
    (by decide) rfl

/-- C6: analyze_article_content routes on
token_count(content) ≤ context_limit(model) − 1000. Within budget it takes
the single-pass path: the result is exactly the analyze_single_article
result on the whole text with one analysis call and zero synthesis calls;
over budget it takes the chunked path: split with chunk_content, one
analysis call per chunk in chunk order, then merge_chunk_analyses over the
collected partials. -/
theorem analyze_content_routing (tc : String → Nat) (model : String)
    (singleCall : CallOutcome) (chunkOutcomes : Nat → CallOutcome)
    (parse : String → Option ParsedAnalysis) (synth : String → CallOutcome)
    (request_id content : String) :
    (((tc content : Int) ≤ (get_model_context_limit model : Int) - 1000) →
      analyze_article_content tc model singleCall chunkOutcomes parse synth request_id content
        = ⟨(analyze_single_article singleCall parse request_id content).1,
           (analyze_single_article singleCall parse request_id content).2, 1, 0⟩)
      ∧ (((get_model_context_limit model : Int) - 1000 < (tc content : Int)) →
      analyze_article_content tc model singleCall chunkOutcomes parse synth request_id content
        = (let chunks := chunk_content tc (get_model_context_limit model : Int) content
           let partials := analyzeChunks chunkOutcomes parse request_id chunks
           let m := merge_chunk_analyses synth (partials.map Prod.fst) (partials.map Prod.snd)
           ⟨m.summary, m.topics, chunks.length, m.synth_calls⟩)) := by
  constructor
  · intro h1
    simp only [analyze_article_content]
    rw [if_pos h1]
  · intro h2
    simp only [analyze_article_content]
    rw [if_neg (not_le.mpr h2)]

/-- Witness for C6: a 3-character document under the gpt-3.5-turbo limit
takes the single-pass path; a token counter reporting 20000 tokens forces
the chunked path. -/
theorem analyze_content_routing_witness :
    (analyze_article_content String.length "gpt-3.5-turbo" none (fun _ => none)
        (fun _ => none) (fun _ => none) "r" "doc"
      = ⟨(analyze_single_article none (fun _ => none) "r" "doc").1,
         (analyze_single_article none (fun _ => none) "r" "doc").2, 1, 0⟩)
      ∧ (analyze_article_content (fun _ => 20000) "gpt-3.5-turbo" none (fun _ => none)
        (fun _ => none) (fun _ => none) "r" "doc"
      = (let chunks := chunk_content (fun _ => 20000) (get_model_context_limit "gpt-3.5-turbo" : Int) "doc"
         let partials := analyzeChunks (fun _ => none) (fun _ => none) "r" chunks
         let m := merge_chunk_analyses (fun _ => none) (partials.map Prod.fst) (partials.map Prod.snd)
         ⟨m.summary, m.topics, chunks.length, m.synth_calls⟩)) :=
  ⟨(analyze_content_routing String.length "gpt-3.5-turbo" none (fun _ => none)
      (fun _ => none) (fun _ => none) "r" "doc").1 (by decide),
   (analyze_content_routing (fun _ => 20000) "gpt-3.5-turbo" none (fun _ => none)
      (fun _ => none) (fun _ => none) "r" "doc").2 (by decide)⟩

end NewsScraper
